import Mathlib

/-!
Verification development for the network composition function (`fn.go`).

The function `RunFunction` reads configuration from an observed composite
resource (`id`, `count`, `includeGateway`, `region`, `providerConfigName`),
then for each replica index `i` in `[0, count)` synthesizes a VPC named
`vpc-<id>-<i>` and, when `includeGateway` holds, an InternetGateway named
`gateway-<id>-<i>`, converts each to its wire representation and upserts it
into the desired-resource collection keyed by its name.  On success the
response carries the updated collection and a 60 second TTL; every failure
is reported as a fatal result inside the response, never as a returned
error value.

The embedding below mirrors the Go code structure for structure.  The two
conversion helpers (`composed.From` for VPCs and InternetGateways) are
library code outside this repository, so the run is parametrized over them;
the concrete instances used by the repository are modelled from the spec.
-/

namespace DemoXfnNetwork

/-- Object metadata of a synthesized resource: name plus labels.  Go label
maps are written with literal distinct keys, modelled as an association list
in written order. -/
structure ObjectMeta where
  name : String
  labels : List (String × String)
deriving Repr, DecidableEq

/-- `v1.Reference` — a reference to a named object (provider config). -/
structure Reference where
  name : String
deriving Repr, DecidableEq

/-- `v1.Selector` — label-based selector with a match-controller flag. -/
structure Selector where
  matchControllerRef : Option Bool
  matchLabels : List (String × String)
deriving Repr, DecidableEq

/-- `awsv1beta1.VPCParameters_2` — the fields `fn.go` sets; pointer-typed
fields in Go are `Option` here, `none` for the Go nil zero value. -/
structure VPCParameters where
  region : Option String
  cidrBlock : Option String
  enableDnsSupport : Option Bool
  enableDnsHostnames : Option Bool
deriving Repr, DecidableEq

/-- `awsv1beta1.VPCSpec` — forProvider parameters plus the provider config
reference from the embedded `v1.ResourceSpec`. -/
structure VPCSpec where
  forProvider : VPCParameters
  providerConfigRef : Option Reference
deriving Repr, DecidableEq

/-- `awsv1beta1.VPC`. -/
structure VPC where
  metadata : ObjectMeta
  spec : VPCSpec
deriving Repr, DecidableEq

/-- `awsv1beta1.InternetGatewayParameters_2`.  Besides `region` and the
selector, the Go struct carries direct-reference fields for the VPC id,
which `fn.go` leaves at their nil zero value: they are included here so
that their absence is part of the model. -/
structure InternetGatewayParameters where
  region : Option String
  vpcId : Option String
  vpcIdRef : Option Reference
  vpcIdSelector : Option Selector
deriving Repr, DecidableEq

/-- `awsv1beta1.InternetGatewaySpec`. -/
structure InternetGatewaySpec where
  forProvider : InternetGatewayParameters
  providerConfigRef : Option Reference
deriving Repr, DecidableEq

/-- `awsv1beta1.InternetGateway`. -/
structure InternetGateway where
  metadata : ObjectMeta
  spec : InternetGatewaySpec
deriving Repr, DecidableEq

/-- The typed body of one composed resource. -/
inductive ComposedBody
  | vpc (v : VPC)
  | gateway (g : InternetGateway)
deriving Repr, DecidableEq

/-- Wire representation of one desired composed resource: `apiVersion` and
`kind` stamped by the conversion from the registered scheme, alongside the
full body. -/
structure DesiredComposed where
  apiVersion : String
  kind : String
  body : ComposedBody
deriving Repr, DecidableEq

/-- The desired-resource collection: a mapping from resource name to
resource definition, modelled as an association list with unique keys,
mutated only by `upsert`. -/
abbrev DesiredMap := List (String × DesiredComposed)

/-- Lookup of a key in the desired-resource collection. -/
def lookupName (m : DesiredMap) (k : String) : Option DesiredComposed :=
  match m with
  | [] => none
  | (k2, v) :: rest => if k2 = k then some v else lookupName rest k

/-- `desired[name] = value` in Go: replace the entry if the key is present,
otherwise append it.  Never deletes. -/
def upsert (m : DesiredMap) (k : String) (v : DesiredComposed) : DesiredMap :=
  match m with
  | [] => [(k, v)]
  | (k2, v2) :: rest => if k2 = k then (k, v) :: rest else (k2, v2) :: upsert rest k v

/-- The observed composite resource, as the set of fields `RunFunction`
reads from it.  A field is `none` when its dotted path is missing or
mistyped; the Go best-effort getters then leave the zero value in place. -/
structure ObservedXR where
  id : Option String
  count : Option Int
  includeGateway : Option Bool
  region : Option String
  providerConfigName : Option String
deriving Repr, DecidableEq

/-- The request: the observed composite resource (whose retrieval can
fail), and the pre-existing desired composed resources (whose retrieval
can also fail). -/
structure RunFunctionRequest where
  observed : Except String ObservedXR
  desiredGet : Except String DesiredMap
deriving Repr

/-- The response: `response.To` fixes the TTL up front; `response.Fatal`
records a fatal result message; the desired resources are present exactly
when `response.SetDesiredComposedResources` ran. -/
structure RunFunctionResponse where
  ttlSeconds : Nat
  fatalMessage : Option String
  desiredResources : Option DesiredMap
deriving Repr, DecidableEq

/-- Everything observable about one invocation: the response, the Go
`error` return value, the final contents of the desired-resource
collection (when the collection was obtainable), and the ordered sequence
of insertions the invocation performed into it. -/
structure RunResult where
  rsp : RunFunctionResponse
  err : Option String
  finalDesired : Option DesiredMap
  inserted : DesiredMap
deriving Repr, DecidableEq

/-- Decimal digit computation with explicit fuel (any fuel above the
number suffices); structural recursion so that terms evaluate. -/
def natDigitsCore : Nat → Nat → List Char
  | 0, _ => []
  | fuel + 1, n =>
    if n < 10 then [Nat.digitChar n]
    else natDigitsCore fuel (n / 10) ++ [Nat.digitChar (n % 10)]

/-- Decimal digits of a natural number, most significant first; models
`%d` formatting of the loop index. -/
def natDigits (n : Nat) : List Char := natDigitsCore (n + 1) n

theorem natDigitsCore_congr :
    ∀ f1 f2 n : Nat, n < f1 → n < f2 → natDigitsCore f1 n = natDigitsCore f2 n := by
  intro f1
  induction f1 with
  | zero => intro f2 n h1 _; omega
  | succ f ih =>
    intro f2 n h1 h2
    cases f2 with
    | zero => omega
    | succ f2 =>
      simp only [natDigitsCore]
      by_cases h : n < 10
      · simp [h]
      · rw [if_neg h, if_neg h]
        have hdiv : n / 10 < n := Nat.div_lt_self (by omega) (by omega)
        rw [ih f2 (n / 10) (by omega) (by omega)]

/-- The defining recurrence of `natDigits`. -/
theorem natDigits_eq (n : Nat) :
    natDigits n = if n < 10 then [Nat.digitChar n]
      else natDigits (n / 10) ++ [Nat.digitChar (n % 10)] := by
  by_cases h : n < 10
  · simp [natDigits, natDigitsCore, h]
  · rw [if_neg h]
    show natDigitsCore (n + 1) n = _
    rw [natDigitsCore, if_neg h]
    have hdiv : n / 10 < n := Nat.div_lt_self (by omega) (by omega)
    rw [natDigitsCore_congr n (n / 10 + 1) (n / 10) (by omega) (by omega)]
    rfl

/-- Decimal string of a natural number. -/
def natStr (n : Nat) : String := ⟨natDigits n⟩

/-- The namespaced correlation label key for the network id. -/
def networkIdKey : String := "networks.meta.fn.crossplane.io/network-id"

/-- The namespaced correlation label key for the VPC id. -/
def vpcIdKey : String := "networks.meta.fn.crossplane.io/vpc-id"

/-- `fmt.Sprintf("vpc-%s-%d", id, i)`. -/
def vpcName (id : String) (i : Nat) : String := "vpc-" ++ id ++ "-" ++ natStr i

/-- `fmt.Sprintf("gateway-%s-%d", id, i)`. -/
def gatewayName (id : String) (i : Nat) : String := "gateway-" ++ id ++ "-" ++ natStr i

/-- The VPC synthesized at replica index `i` (`fn.go` lines 72-91). -/
def mkVPC (id region providerConfigName : String) (i : Nat) : VPC :=
  { metadata :=
      { name := vpcName id i
        labels := [(networkIdKey, id), (vpcIdKey, vpcName id i)] }
    spec :=
      { forProvider :=
          { region := some region
            cidrBlock := some "192.168.0.0/16"
            enableDnsSupport := some true
            enableDnsHostnames := some true }
        providerConfigRef := some { name := providerConfigName } } }

/-- The InternetGateway synthesized at replica index `i` (`fn.go` lines
104-125): no direct VPC identifier, only the label selector paired with
`vpcName id i` and the match-controller flag. -/
def mkGateway (id region providerConfigName : String) (i : Nat) : InternetGateway :=
  { metadata :=
      { name := gatewayName id i
        labels := [(networkIdKey, id)] }
    spec :=
      { forProvider :=
          { region := some region
            vpcId := none
            vpcIdRef := none
            vpcIdSelector := some
              { matchControllerRef := some true
                matchLabels := [(vpcIdKey, vpcName id i)] } }
        providerConfigRef := some { name := providerConfigName } } }

/-- apiVersion stamped on both resource kinds by the registered scheme. -/
def ec2ApiVersion : String := "ec2.aws.upbound.io/v1beta1"

/-- Modelled from the spec: `composed.From` (library code, not in this
repository) converts a typed object to the wire representation, stamping
`apiVersion` and `kind` from the scheme; conversion of the well-formed
VPCs built here succeeds. -/
def composedFromVPC (v : VPC) : Except String DesiredComposed :=
  .ok { apiVersion := ec2ApiVersion, kind := "VPC", body := .vpc v }

/-- Modelled from the spec: `composed.From` for InternetGateways, as for
`composedFromVPC`. -/
def composedFromGateway (g : InternetGateway) : Except String DesiredComposed :=
  .ok { apiVersion := ec2ApiVersion, kind := "InternetGateway", body := .gateway g }

/-- Result of the replica loop: the collection, the insertions performed,
and the fatal message when a conversion failed. -/
structure LoopResult where
  desired : DesiredMap
  inserted : DesiredMap
  fatalMsg : Option String
deriving Repr, DecidableEq

/-- The replica loop (`fn.go` lines 69-136), parametrized over the two
converters.  Each iteration builds the VPC, converts it (failure is fatal
and stops the loop), inserts it, and when `includeGateway` holds does the
same for the gateway. -/
def composeLoop (convV : VPC → Except String DesiredComposed)
    (convG : InternetGateway → Except String DesiredComposed)
    (id region providerConfigName : String) (includeGateway : Bool) :
    List Nat → DesiredMap → DesiredMap → LoopResult
  | [], desired, inserted => ⟨desired, inserted, none⟩
  | i :: rest, desired, inserted =>
    match convV (mkVPC id region providerConfigName i) with
    | .error e =>
      ⟨desired, inserted,
        some ("cannot convert *v1beta1.VPC to *composed.Unstructured: " ++ e)⟩
    | .ok dcVPC =>
      let desired1 := upsert desired (vpcName id i) dcVPC
      let inserted1 := inserted ++ [(vpcName id i, dcVPC)]
      if includeGateway then
        match convG (mkGateway id region providerConfigName i) with
        | .error e =>
          ⟨desired1, inserted1,
            some ("cannot convert *v1beta1.InternetGateway to *composed.Unstructured: " ++ e)⟩
        | .ok dcGW =>
          composeLoop convV convG id region providerConfigName includeGateway rest
            (upsert desired1 (gatewayName id i) dcGW)
            (inserted1 ++ [(gatewayName id i, dcGW)])
      else
        composeLoop convV convG id region providerConfigName includeGateway rest
          desired1 inserted1

/-- `response.DefaultTTL` is 60 seconds. -/
def defaultTTLSeconds : Nat := 60

/-- The region default (`fn.go` lines 47-49): an empty extracted region
becomes `eu-central-1`, anything else passes through unchanged. -/
def effectiveRegion (region : String) : String :=
  if region = "" then "eu-central-1" else region

/-- The provider config name default (`fn.go` lines 51-53): an empty
extracted name becomes `default`, anything else passes through. -/
def effectiveProviderConfigName (providerConfigName : String) : String :=
  if providerConfigName = "" then "default" else providerConfigName

/-- `RunFunction` (`fn.go` lines 30-146), parametrized over the two
converters.  Mirrors the source: fixed-TTL response up front; fatal return
when the observed composite cannot be retrieved; best-effort field
extraction with zero values and the two documented defaults; fatal return
when the desired collection cannot be retrieved; the replica loop over
`[0, count)`; on success the updated collection is set on the response.
Every path returns a nil Go error (`err := none`). -/
def runFunctionWith (convV : VPC → Except String DesiredComposed)
    (convG : InternetGateway → Except String DesiredComposed)
    (req : RunFunctionRequest) : RunResult :=
  let rsp0 : RunFunctionResponse :=
    { ttlSeconds := defaultTTLSeconds, fatalMessage := none, desiredResources := none }
  match req.observed with
  | .error e =>
    { rsp := { rsp0 with fatalMessage := some ("cannot get desired XR: " ++ e) }
      err := none
      finalDesired := req.desiredGet.toOption
      inserted := [] }
  | .ok oxr =>
    let id := oxr.id.getD ""
    let count := oxr.count.getD 0
    let includeGateway := oxr.includeGateway.getD false
    let region := effectiveRegion (oxr.region.getD "")
    let providerConfigName := effectiveProviderConfigName (oxr.providerConfigName.getD "")
    match req.desiredGet with
    | .error e =>
      let msg := "cannot get desired resources from *v1.RunFunctionRequest: " ++ e
      { rsp := { rsp0 with fatalMessage := some msg }
        err := none
        finalDesired := none
        inserted := [] }
    | .ok desired0 =>
      let lr := composeLoop convV convG id region providerConfigName includeGateway
                  (List.range count.toNat) desired0 []
      match lr.fatalMsg with
      | some msg =>
        { rsp := { rsp0 with fatalMessage := some msg }
          err := none
          finalDesired := some lr.desired
          inserted := lr.inserted }
      | none =>
        { rsp := { rsp0 with desiredResources := some lr.desired }
          err := none
          finalDesired := some lr.desired
          inserted := lr.inserted }

/-- `RunFunction` with the repository's actual converters. -/
def runFunction (req : RunFunctionRequest) : RunResult :=
  runFunctionWith composedFromVPC composedFromGateway req

/-- The wire entry the successful conversion produces for the VPC at
index `i`. -/
def vpcEntry (id region providerConfigName : String) (i : Nat) : DesiredComposed :=
  { apiVersion := ec2ApiVersion, kind := "VPC"
    body := .vpc (mkVPC id region providerConfigName i) }

/-- The wire entry the successful conversion produces for the gateway at
index `i`. -/
def gatewayEntry (id region providerConfigName : String) (i : Nat) : DesiredComposed :=
  { apiVersion := ec2ApiVersion, kind := "InternetGateway"
    body := .gateway (mkGateway id region providerConfigName i) }

/-- The insertions a fully successful iteration at index `i` performs, in
order. -/
def unitInserts (id region providerConfigName : String) (gw : Bool) (i : Nat) : DesiredMap :=
  (vpcName id i, vpcEntry id region providerConfigName i) ::
    (if gw then [(gatewayName id i, gatewayEntry id region providerConfigName i)] else [])

/-- The insertions a fully successful run with `n` replicas performs, in
order. -/
def generatedInserts (id region providerConfigName : String) (gw : Bool) (n : Nat) : DesiredMap :=
  (List.range n).flatMap (unitInserts id region providerConfigName gw)

/-- The names generated at index `i`. -/
def unitNames (id : String) (gw : Bool) (i : Nat) : List String :=
  vpcName id i :: (if gw then [gatewayName id i] else [])

/-- All names a run with `n` replicas generates, in order. -/
def generatedNames (id : String) (gw : Bool) (n : Nat) : List String :=
  (List.range n).flatMap (unitNames id gw)

/-- Folding a list of insertions into the collection, first to last. -/
def insertAll (d : DesiredMap) (l : DesiredMap) : DesiredMap :=
  l.foldl (fun m p => upsert m p.1 p.2) d

/-- The insertions of a successful run, as a function of the observed
composite resource (after extraction and defaulting). -/
def genInserts (oxr : ObservedXR) : DesiredMap :=
  generatedInserts (oxr.id.getD "") (effectiveRegion (oxr.region.getD ""))
    (effectiveProviderConfigName (oxr.providerConfigName.getD ""))
    (oxr.includeGateway.getD false) (oxr.count.getD 0).toNat

/-- The region stored in a wire entry, for either kind. -/
def unitRegion : DesiredComposed → Option String
  | ⟨_, _, .vpc v⟩ => v.spec.forProvider.region
  | ⟨_, _, .gateway g⟩ => g.spec.forProvider.region

/-- The provider config reference stored in a wire entry, for either
kind. -/
def unitProviderConfigRef : DesiredComposed → Option Reference
  | ⟨_, _, .vpc v⟩ => v.spec.providerConfigRef
  | ⟨_, _, .gateway g⟩ => g.spec.providerConfigRef

/-- The metadata labels of a wire entry, for either kind. -/
def unitLabels : DesiredComposed → List (String × String)
  | ⟨_, _, .vpc v⟩ => v.metadata.labels
  | ⟨_, _, .gateway g⟩ => g.metadata.labels

/-- The metadata name of a wire entry, for either kind. -/
def unitName : DesiredComposed → String
  | ⟨_, _, .vpc v⟩ => v.metadata.name
  | ⟨_, _, .gateway g⟩ => g.metadata.name

/-- `true` on `.ok`, `false` on `.error`. -/
def exceptOk {ε α : Type} : Except ε α → Bool
  | .ok _ => true
  | .error _ => false

/-! ### Decimal printing is injective -/

/-- Numeric value of a decimal digit character. -/
def digitVal (c : Char) : Nat := c.toNat - 48

/-- One step of reading a decimal string. -/
def decValStep (a : Nat) (c : Char) : Nat := 10 * a + digitVal c

theorem digitVal_digitChar : ∀ n < 10, digitVal (Nat.digitChar n) = n := by decide

theorem foldl_decValStep_natDigits (n : Nat) :
    ∀ a, (natDigits n).foldl decValStep a = a * 10 ^ (natDigits n).length + n := by
  induction n using Nat.strong_induction_on with
  | _ n ih =>
    intro a
    rw [natDigits_eq]
    by_cases h : n < 10
    · simp only [if_pos h, List.foldl_cons, List.foldl_nil, List.length_singleton,
        decValStep, digitVal_digitChar n h, pow_one]
      omega
    · have hd : n / 10 < n := Nat.div_lt_self (by omega) (by omega)
      have hmod : n % 10 < 10 := Nat.mod_lt n (by omega)
      rw [if_neg h, List.foldl_append, ih (n / 10) hd a]
      simp only [List.foldl_cons, List.foldl_nil, List.length_append, List.length_singleton,
        decValStep, digitVal_digitChar _ hmod]
      have key : 10 * (n / 10) + n % 10 = n := Nat.div_add_mod n 10
      calc 10 * (a * 10 ^ (natDigits (n / 10)).length + n / 10) + n % 10
          = a * 10 ^ ((natDigits (n / 10)).length + 1) + (10 * (n / 10) + n % 10) := by ring
        _ = a * 10 ^ ((natDigits (n / 10)).length + 1) + n := by rw [key]

theorem decVal_natDigits (n : Nat) : (natDigits n).foldl decValStep 0 = n := by
  simpa using foldl_decValStep_natDigits n 0

theorem natDigits_injective {m n : Nat} (h : natDigits m = natDigits n) : m = n := by
  have hm := decVal_natDigits m
  rw [h, decVal_natDigits] at hm
  omega

theorem natStr_injective {m n : Nat} (h : natStr m = natStr n) : m = n :=
  natDigits_injective (congrArg String.data h)

theorem vpcName_inj {id : String} {i j : Nat} (h : vpcName id i = vpcName id j) : i = j := by
  have hd := congrArg String.data h
  simp only [vpcName, natStr, String.data_append] at hd
  exact natDigits_injective (by simpa using hd)

theorem gatewayName_inj {id : String} {i j : Nat}
    (h : gatewayName id i = gatewayName id j) : i = j := by
  have hd := congrArg String.data h
  simp only [gatewayName, natStr, String.data_append] at hd
  exact natDigits_injective (by simpa using hd)

theorem vpcName_ne_gatewayName (id id2 : String) (i j : Nat) :
    vpcName id i ≠ gatewayName id2 j := by
  intro h
  have hd := congrArg String.data h
  simp only [vpcName, gatewayName, natStr, String.data_append] at hd
  simp at hd

/-! ### Collection lemmas -/

theorem insertAll_nil (d : DesiredMap) : insertAll d [] = d := rfl

theorem insertAll_cons (d : DesiredMap) (p : String × DesiredComposed) (t : DesiredMap) :
    insertAll d (p :: t) = insertAll (upsert d p.1 p.2) t := rfl

theorem lookupName_upsert (d : DesiredMap) (k : String) (v : DesiredComposed) (k2 : String) :
    lookupName (upsert d k v) k2 = if k = k2 then some v else lookupName d k2 := by
  induction d with
  | nil => by_cases h : k = k2 <;> simp [upsert, lookupName, h]
  | cons p rest ih =>
    obtain ⟨k1, v1⟩ := p
    by_cases h1 : k1 = k
    · subst h1
      by_cases h2 : k1 = k2 <;> simp [upsert, lookupName, h2]
    · by_cases h2 : k = k2
      · subst h2
        simp [upsert, h1, lookupName, ih]
      · by_cases h3 : k1 = k2
        · subst h3
          simp [upsert, lookupName, h1, h2, ih]
        · simp [upsert, lookupName, h1, h2, h3, ih]

theorem lookupName_insertAll_of_not_mem (l : DesiredMap) :
    ∀ (d : DesiredMap) (k : String), k ∉ l.map Prod.fst →
      lookupName (insertAll d l) k = lookupName d k := by
  induction l with
  | nil => intro d k _; rfl
  | cons p t ih =>
    intro d k h
    simp only [List.map_cons, List.mem_cons, not_or] at h
    rw [insertAll_cons, ih _ _ h.2, lookupName_upsert, if_neg (fun hh => h.1 hh.symm)]

theorem lookupName_insertAll_isSome (l : DesiredMap) :
    ∀ (d : DesiredMap) (k : String), (lookupName d k).isSome →
      (lookupName (insertAll d l) k).isSome := by
  induction l with
  | nil => intro d k h; exact h
  | cons p t ih =>
    intro d k h
    rw [insertAll_cons]
    apply ih
    rw [lookupName_upsert]
    by_cases hh : p.1 = k <;> simp [hh, h]

theorem lookupName_insertAll_mem (l : DesiredMap) (hnd : (l.map Prod.fst).Nodup) :
    ∀ (d : DesiredMap), ∀ p ∈ l, lookupName (insertAll d l) p.1 = some p.2 := by
  induction l with
  | nil => intro d p hp; cases hp
  | cons q t ih =>
    simp only [List.map_cons, List.nodup_cons] at hnd
    intro d p hp
    rcases List.mem_cons.mp hp with rfl | hp2
    · rw [insertAll_cons, lookupName_insertAll_of_not_mem t _ _ hnd.1, lookupName_upsert,
        if_pos rfl]
    · exact ih hnd.2 _ p hp2

/-! ### Closed form of the successful run -/

theorem composeLoop_total (id region pcn : String) (gw : Bool) (is : List Nat) :
    ∀ (d acc : DesiredMap),
      composeLoop composedFromVPC composedFromGateway id region pcn gw is d acc =
        ⟨insertAll d (is.flatMap (unitInserts id region pcn gw)),
         acc ++ is.flatMap (unitInserts id region pcn gw), none⟩ := by
  induction is with
  | nil => intro d acc; simp [composeLoop, insertAll]
  | cons i rest ih =>
    intro d acc
    cases gw
    · simp [composeLoop, composedFromVPC, ih, unitInserts, vpcEntry, insertAll_cons]
    · simp [composeLoop, composedFromVPC, composedFromGateway, ih, unitInserts,
        vpcEntry, gatewayEntry, insertAll_cons]

theorem runFunction_ok (req : RunFunctionRequest) (oxr : ObservedXR) (d0 : DesiredMap)
    (h1 : req.observed = .ok oxr) (h2 : req.desiredGet = .ok d0) :
    runFunction req =
      ⟨⟨defaultTTLSeconds, none, some (insertAll d0 (genInserts oxr))⟩, none,
       some (insertAll d0 (genInserts oxr)), genInserts oxr⟩ := by
  unfold runFunction runFunctionWith
  rw [h1, h2]
  simp [composeLoop_total, genInserts, generatedInserts]

/-! ### Facts about the generated entries -/

theorem generatedInserts_map_fst (id r p : String) (gw : Bool) (n : Nat) :
    (generatedInserts id r p gw n).map Prod.fst = generatedNames id gw n := by
  rw [generatedInserts, generatedNames, List.map_flatMap]
  refine List.flatMap_congr ?_
  intro i _
  cases gw <;> simp [unitInserts, unitNames]

theorem generatedNames_nodup (id : String) (gw : Bool) (n : Nat) :
    (generatedNames id gw n).Nodup := by
  rw [generatedNames, List.nodup_flatMap]
  constructor
  · intro i _
    cases gw <;> simp [unitNames, vpcName_ne_gatewayName]
  · have hlt : (List.range n).Pairwise (· < ·) := List.pairwise_lt_range n
    refine hlt.imp ?_
    intro i j hij
    have hne : i ≠ j := Nat.ne_of_lt hij
    intro a ha hb
    cases gw <;> simp [unitNames] at ha hb
    · exact hne (vpcName_inj (ha.symm.trans hb))
    · rcases ha with rfl | rfl <;> rcases hb with hb | hb
      · exact hne (vpcName_inj hb)
      · exact vpcName_ne_gatewayName id id i j hb
      · exact vpcName_ne_gatewayName id id j i hb.symm
      · exact hne (gatewayName_inj hb)

theorem generatedInserts_count_vpc (id r p : String) (gw : Bool) (n : Nat) :
    ((generatedInserts id r p gw n).filter (fun q => q.2.kind == "VPC")).length = n := by
  induction n with
  | zero => simp [generatedInserts]
  | succ m ih =>
    rw [generatedInserts, List.range_succ, List.flatMap_append, List.filter_append,
      List.length_append]
    rw [generatedInserts] at ih
    rw [ih]
    cases gw <;> simp [unitInserts, vpcEntry, gatewayEntry]

theorem generatedInserts_count_gateway (id r p : String) (gw : Bool) (n : Nat) :
    ((generatedInserts id r p gw n).filter (fun q => q.2.kind == "InternetGateway")).length =
      if gw then n else 0 := by
  induction n with
  | zero => simp [generatedInserts]
  | succ m ih =>
    rw [generatedInserts, List.range_succ, List.flatMap_append, List.filter_append,
      List.length_append]
    rw [generatedInserts] at ih
    rw [ih]
    cases gw <;> simp [unitInserts, vpcEntry, gatewayEntry]

theorem mem_generatedInserts {id r p : String} {gw : Bool} {n : Nat}
    {q : String × DesiredComposed} (hq : q ∈ generatedInserts id r p gw n) :
    ∃ i, i < n ∧ (q = (vpcName id i, vpcEntry id r p i) ∨
      (gw = true ∧ q = (gatewayName id i, gatewayEntry id r p i))) := by
  rw [generatedInserts] at hq
  rcases List.mem_flatMap.mp hq with ⟨i, hi, hmem⟩
  refine ⟨i, List.mem_range.mp hi, ?_⟩
  cases gw
  · simp only [unitInserts, if_neg Bool.false_ne_true, List.mem_singleton] at hmem
    exact Or.inl hmem
  · simp only [unitInserts, if_pos rfl, List.mem_cons, List.mem_singleton] at hmem
    rcases hmem with h | h
    · exact Or.inl h
    · exact Or.inr ⟨rfl, by simpa using h⟩

theorem mem_generatedNames {id : String} {gw : Bool} {n : Nat} {a : String}
    (h : a ∈ generatedNames id gw n) :
    ∃ i, i < n ∧ (a = vpcName id i ∨ a = gatewayName id i) := by
  rw [generatedNames] at h
  rcases List.mem_flatMap.mp h with ⟨i, hi, hm⟩
  refine ⟨i, List.mem_range.mp hi, ?_⟩
  cases gw <;> simp [unitNames] at hm
  · exact Or.inl hm
  · tauto

/-- Sample observed composite resource, matching the repository's test
fixture. -/
def sampleOXR : ObservedXR :=
  { id := some "code", count := some 1, includeGateway := some true
    region := some "eu-central-1", providerConfigName := some "default" }

/-- Sample request with an empty pre-existing desired collection. -/
def sampleReq : RunFunctionRequest :=
  { observed := Except.ok sampleOXR, desiredGet := Except.ok [] }

/-! ### Claims -/

/-- C1: for every input with `count ≥ 0`, a successful invocation adds
exactly `count` VPC entries to the desired-resource collection and, when
`includeGateway` is true, exactly `count` InternetGateway entries; when
`count = 0` no entries are added and the response is still successful. -/
theorem count_entries_added (req : RunFunctionRequest) (oxr : ObservedXR) (d0 : DesiredMap)
    (h1 : req.observed = Except.ok oxr) (h2 : req.desiredGet = Except.ok d0)
    (hc : 0 ≤ oxr.count.getD 0) :
    (runFunction req).rsp.fatalMessage = none ∧
    ((((runFunction req).inserted.filter (fun q => q.2.kind == "VPC")).length : Int) =
      oxr.count.getD 0) ∧
    (oxr.includeGateway.getD false = true →
      ((((runFunction req).inserted.filter
          (fun q => q.2.kind == "InternetGateway")).length : Int) = oxr.count.getD 0)) ∧
    (oxr.count.getD 0 = 0 →
      (runFunction req).inserted = [] ∧ (runFunction req).rsp.fatalMessage = none) := by
  rw [runFunction_ok req oxr d0 h1 h2]
  refine ⟨rfl, ?_, ?_, ?_⟩
  · simp only [genInserts, generatedInserts_count_vpc]
    exact Int.toNat_of_nonneg hc
  · intro hgw
    simp only [genInserts, hgw, generatedInserts_count_gateway, if_pos]
    exact Int.toNat_of_nonneg hc
  · intro h0
    refine ⟨?_, rfl⟩
    simp [genInserts, h0, generatedInserts]

theorem count_entries_added_witness :
    (sampleReq.observed = Except.ok sampleOXR ∧ sampleReq.desiredGet = Except.ok [] ∧
      0 ≤ sampleOXR.count.getD 0) ∧
    ((runFunction sampleReq).rsp.fatalMessage = none ∧
    ((((runFunction sampleReq).inserted.filter (fun q => q.2.kind == "VPC")).length : Int) =
      sampleOXR.count.getD 0) ∧
    (sampleOXR.includeGateway.getD false = true →
      ((((runFunction sampleReq).inserted.filter
          (fun q => q.2.kind == "InternetGateway")).length : Int) = sampleOXR.count.getD 0)) ∧
    (sampleOXR.count.getD 0 = 0 →
      (runFunction sampleReq).inserted = [] ∧
        (runFunction sampleReq).rsp.fatalMessage = none)) :=
  ⟨⟨rfl, rfl, by decide⟩, count_entries_added sampleReq sampleOXR [] rfl rfl (by decide)⟩

/-- C2: the generated names are exactly `vpc-<id>-<i>` and
`gateway-<id>-<i>` for `i` in `[0, count)` (in index order, which is what
`generatedNames` lists), they are pairwise distinct, and they are a
function of the input alone, so two invocations with identical input
produce identical names. -/
theorem names_deterministic_distinct (req : RunFunctionRequest) (oxr : ObservedXR)
    (d0 : DesiredMap)
    (h1 : req.observed = Except.ok oxr) (h2 : req.desiredGet = Except.ok d0) :
    (runFunction req).inserted.map Prod.fst =
      generatedNames (oxr.id.getD "") (oxr.includeGateway.getD false)
        (oxr.count.getD 0).toNat ∧
    ((runFunction req).inserted.map Prod.fst).Nodup := by
  rw [runFunction_ok req oxr d0 h1 h2]
  have hm : (genInserts oxr).map Prod.fst =
      generatedNames (oxr.id.getD "") (oxr.includeGateway.getD false)
        (oxr.count.getD 0).toNat := generatedInserts_map_fst _ _ _ _ _
  exact ⟨hm, hm ▸ generatedNames_nodup _ _ _⟩

theorem names_deterministic_distinct_witness :
    (sampleReq.observed = Except.ok sampleOXR ∧ sampleReq.desiredGet = Except.ok []) ∧
    ((runFunction sampleReq).inserted.map Prod.fst =
      generatedNames (sampleOXR.id.getD "") (sampleOXR.includeGateway.getD false)
        (sampleOXR.count.getD 0).toNat ∧
    ((runFunction sampleReq).inserted.map Prod.fst).Nodup) :=
  ⟨⟨rfl, rfl⟩, names_deterministic_distinct sampleReq sampleOXR [] rfl rfl⟩

/-- C3: every generated gateway unit carries a VPC-id selector with
`matchControllerRef = true` whose match labels are exactly the single pair
from the `vpc-id` label key to its paired VPC's name `vpc-<id>-<i>`, and no
direct identifier reference to the VPC is embedded (both direct-reference
fields are nil). -/
theorem gateway_selector_exact (req : RunFunctionRequest) (oxr : ObservedXR)
    (d0 : DesiredMap)
    (h1 : req.observed = Except.ok oxr) (h2 : req.desiredGet = Except.ok d0) :
    ∀ q ∈ (runFunction req).inserted, ∀ g : InternetGateway, q.2.body = .gateway g →
      ∃ i, i < (oxr.count.getD 0).toNat ∧ q.1 = gatewayName (oxr.id.getD "") i ∧
        g.spec.forProvider.vpcIdSelector =
          some { matchControllerRef := some true
                 matchLabels := [(vpcIdKey, vpcName (oxr.id.getD "") i)] } ∧
        g.spec.forProvider.vpcId = none ∧ g.spec.forProvider.vpcIdRef = none := by
  rw [runFunction_ok req oxr d0 h1 h2]
  intro q hq g hg
  rcases mem_generatedInserts hq with ⟨i, hi, hcase⟩
  rcases hcase with rfl | ⟨_, rfl⟩
  · exact absurd hg (by simp [vpcEntry])
  · have hge : mkGateway (oxr.id.getD "") (effectiveRegion (oxr.region.getD ""))
        (effectiveProviderConfigName (oxr.providerConfigName.getD "")) i = g := by
      simpa [gatewayEntry] using hg
    exact ⟨i, hi, rfl, by rw [← hge]; exact ⟨rfl, rfl, rfl⟩⟩

theorem gateway_selector_exact_witness :
    (sampleReq.observed = Except.ok sampleOXR ∧ sampleReq.desiredGet = Except.ok []) ∧
    (∀ q ∈ (runFunction sampleReq).inserted, ∀ g : InternetGateway,
      q.2.body = .gateway g →
      ∃ i, i < (sampleOXR.count.getD 0).toNat ∧
        q.1 = gatewayName (sampleOXR.id.getD "") i ∧
        g.spec.forProvider.vpcIdSelector =
          some { matchControllerRef := some true
                 matchLabels := [(vpcIdKey, vpcName (sampleOXR.id.getD "") i)] } ∧
        g.spec.forProvider.vpcId = none ∧ g.spec.forProvider.vpcIdRef = none) :=
  ⟨⟨rfl, rfl⟩, gateway_selector_exact sampleReq sampleOXR [] rfl rfl⟩

/-- C4: every generated unit's `forProvider.region` is the extracted region
when that is non-empty and `eu-central-1` when it is empty, and its
`providerConfigRef.name` is the extracted provider config name when
non-empty and `default` when empty. -/
theorem defaults_applied (req : RunFunctionRequest) (oxr : ObservedXR) (d0 : DesiredMap)
    (h1 : req.observed = Except.ok oxr) (h2 : req.desiredGet = Except.ok d0) :
    ∀ q ∈ (runFunction req).inserted,
      (oxr.region.getD "" = "" → unitRegion q.2 = some "eu-central-1") ∧
      (oxr.region.getD "" ≠ "" → unitRegion q.2 = some (oxr.region.getD "")) ∧
      (oxr.providerConfigName.getD "" = "" →
        unitProviderConfigRef q.2 = some { name := "default" }) ∧
      (oxr.providerConfigName.getD "" ≠ "" →
        unitProviderConfigRef q.2 = some { name := oxr.providerConfigName.getD "" }) := by
  rw [runFunction_ok req oxr d0 h1 h2]
  intro q hq
  rcases mem_generatedInserts hq with ⟨i, _, hcase⟩
  have hru : unitRegion q.2 = some (effectiveRegion (oxr.region.getD "")) ∧
      unitProviderConfigRef q.2 =
        some { name := effectiveProviderConfigName (oxr.providerConfigName.getD "") } := by
    rcases hcase with rfl | ⟨_, rfl⟩
    · exact ⟨rfl, rfl⟩
    · exact ⟨rfl, rfl⟩
  refine ⟨?_, ?_, ?_, ?_⟩
  · intro he; rw [hru.1, effectiveRegion, if_pos he]
  · intro he; rw [hru.1, effectiveRegion, if_neg he]
  · intro he; rw [hru.2, effectiveProviderConfigName, if_pos he]
  · intro he; rw [hru.2, effectiveProviderConfigName, if_neg he]

theorem defaults_applied_witness :
    (sampleReq.observed = Except.ok sampleOXR ∧ sampleReq.desiredGet = Except.ok []) ∧
    (∀ q ∈ (runFunction sampleReq).inserted,
      (sampleOXR.region.getD "" = "" → unitRegion q.2 = some "eu-central-1") ∧
      (sampleOXR.region.getD "" ≠ "" → unitRegion q.2 = some (sampleOXR.region.getD "")) ∧
      (sampleOXR.providerConfigName.getD "" = "" →
        unitProviderConfigRef q.2 = some { name := "default" }) ∧
      (sampleOXR.providerConfigName.getD "" ≠ "" →
        unitProviderConfigRef q.2 =
          some { name := sampleOXR.providerConfigName.getD "" })) :=
  ⟨⟨rfl, rfl⟩, defaults_applied sampleReq sampleOXR [] rfl rfl⟩

/-- C5: every generated unit carries the namespaced `network-id` label with
the input id as value; every VPC's labels are exactly the `network-id` pair
followed by the `vpc-id` pair valued with its own name; every gateway's
labels are exactly the `network-id` pair alone. -/
theorem correlation_labels (req : RunFunctionRequest) (oxr : ObservedXR) (d0 : DesiredMap)
    (h1 : req.observed = Except.ok oxr) (h2 : req.desiredGet = Except.ok d0) :
    ∀ q ∈ (runFunction req).inserted,
      (networkIdKey, oxr.id.getD "") ∈ unitLabels q.2 ∧
      (∀ v : VPC, q.2.body = .vpc v →
        v.metadata.labels =
          [(networkIdKey, oxr.id.getD ""), (vpcIdKey, v.metadata.name)]) ∧
      (∀ g : InternetGateway, q.2.body = .gateway g →
        g.metadata.labels = [(networkIdKey, oxr.id.getD "")]) := by
  rw [runFunction_ok req oxr d0 h1 h2]
  intro q hq
  rcases mem_generatedInserts hq with ⟨i, _, hcase⟩
  rcases hcase with rfl | ⟨_, rfl⟩
  · refine ⟨List.mem_cons_self _ _, ?_, ?_⟩
    · intro v hv
      have hve : mkVPC (oxr.id.getD "") (effectiveRegion (oxr.region.getD ""))
          (effectiveProviderConfigName (oxr.providerConfigName.getD "")) i = v := by
        simpa [vpcEntry] using hv
      rw [← hve]
      rfl
    · intro g hg
      exact absurd hg (by simp [vpcEntry])
  · refine ⟨List.mem_cons_self _ _, ?_, ?_⟩
    · intro v hv
      exact absurd hv (by simp [gatewayEntry])
    · intro g hg
      have hge : mkGateway (oxr.id.getD "") (effectiveRegion (oxr.region.getD ""))
          (effectiveProviderConfigName (oxr.providerConfigName.getD "")) i = g := by
        simpa [gatewayEntry] using hg
      rw [← hge]
      rfl

theorem correlation_labels_witness :
    (sampleReq.observed = Except.ok sampleOXR ∧ sampleReq.desiredGet = Except.ok []) ∧
    (∀ q ∈ (runFunction sampleReq).inserted,
      (networkIdKey, sampleOXR.id.getD "") ∈ unitLabels q.2 ∧
      (∀ v : VPC, q.2.body = .vpc v →
        v.metadata.labels =
          [(networkIdKey, sampleOXR.id.getD ""), (vpcIdKey, v.metadata.name)]) ∧
      (∀ g : InternetGateway, q.2.body = .gateway g →
        g.metadata.labels = [(networkIdKey, sampleOXR.id.getD "")])) :=
  ⟨⟨rfl, rfl⟩, correlation_labels sampleReq sampleOXR [] rfl rfl⟩

/-- Sample request whose observed composite resource cannot be
retrieved. -/
def badObservedReq : RunFunctionRequest :=
  { observed := Except.error "boom", desiredGet := Except.ok [] }

/-- C6: when the observed composite resource cannot be retrieved, the
response is fatal with a non-empty message, nothing is inserted, and the
desired-resource collection is unchanged (and never set on the
response). -/
theorem observed_failure_fatal (req : RunFunctionRequest) (e : String)
    (h : req.observed = Except.error e) :
    ∃ m, (runFunction req).rsp.fatalMessage = some m ∧ m ≠ "" ∧
      (runFunction req).inserted = [] ∧
      (runFunction req).finalDesired = req.desiredGet.toOption ∧
      (runFunction req).rsp.desiredResources = none := by
  unfold runFunction runFunctionWith
  rw [h]
  refine ⟨_, rfl, ?_, rfl, rfl, rfl⟩
  intro hh
  have hdata := congrArg String.data hh
  simp [String.data_append] at hdata

theorem observed_failure_fatal_witness :
    (badObservedReq.observed = Except.error "boom") ∧
    (∃ m, (runFunction badObservedReq).rsp.fatalMessage = some m ∧ m ≠ "" ∧
      (runFunction badObservedReq).inserted = [] ∧
      (runFunction badObservedReq).finalDesired = badObservedReq.desiredGet.toOption ∧
      (runFunction badObservedReq).rsp.desiredResources = none) :=
  ⟨rfl, observed_failure_fatal badObservedReq "boom" rfl⟩

/-- C7: after an invocation, every key of the pre-existing collection that
is not one of the generated names `vpc-<id>-<i>` / `gateway-<id>-<i>` for
`i < count` still maps to its original value, and no key is ever
deleted. -/
theorem untouched_keys_preserved (req : RunFunctionRequest) (oxr : ObservedXR)
    (d0 : DesiredMap)
    (h1 : req.observed = Except.ok oxr) (h2 : req.desiredGet = Except.ok d0) :
    ∃ d, (runFunction req).finalDesired = some d ∧
      (∀ k : String,
        (∀ i, i < (oxr.count.getD 0).toNat →
          k ≠ vpcName (oxr.id.getD "") i ∧ k ≠ gatewayName (oxr.id.getD "") i) →
        lookupName d k = lookupName d0 k) ∧
      (∀ k : String, (lookupName d0 k).isSome → (lookupName d k).isSome) := by
  rw [runFunction_ok req oxr d0 h1 h2]
  refine ⟨_, rfl, ?_, ?_⟩
  · intro k hk
    apply lookupName_insertAll_of_not_mem
    intro hmem
    rw [genInserts, generatedInserts_map_fst] at hmem
    rcases mem_generatedNames hmem with ⟨i, hi, hcase⟩
    rcases hcase with rfl | rfl
    · exact (hk i hi).1 rfl
    · exact (hk i hi).2 rfl
  · intro k hk
    exact lookupName_insertAll_isSome _ _ _ hk

theorem untouched_keys_preserved_witness :
    (sampleReq.observed = Except.ok sampleOXR ∧ sampleReq.desiredGet = Except.ok []) ∧
    (∃ d, (runFunction sampleReq).finalDesired = some d ∧
      (∀ k : String,
        (∀ i, i < (sampleOXR.count.getD 0).toNat →
          k ≠ vpcName (sampleOXR.id.getD "") i ∧
            k ≠ gatewayName (sampleOXR.id.getD "") i) →
        lookupName d k = lookupName [] k) ∧
      (∀ k : String, (lookupName [] k).isSome → (lookupName d k).isSome)) :=
  ⟨⟨rfl, rfl⟩, untouched_keys_preserved sampleReq sampleOXR [] rfl rfl⟩

/-- C9: when every replica completes (which the repository's converters
always do), the response is successful: no fatal result, the fixed
60-second TTL, and the full updated mapping carrying every entry generated
in this invocation and every pre-existing entry (untouched keys keep their
values; colliding keys are upserted; no key is dropped). -/
theorem success_full_mapping (req : RunFunctionRequest) (oxr : ObservedXR)
    (d0 : DesiredMap)
    (h1 : req.observed = Except.ok oxr) (h2 : req.desiredGet = Except.ok d0) :
    (runFunction req).err = none ∧
    (runFunction req).rsp.fatalMessage = none ∧
    (runFunction req).rsp.ttlSeconds = 60 ∧
    ∃ d, (runFunction req).rsp.desiredResources = some d ∧
      (runFunction req).finalDesired = some d ∧
      (∀ p ∈ (runFunction req).inserted, lookupName d p.1 = some p.2) ∧
      (∀ k : String, (lookupName d0 k).isSome → (lookupName d k).isSome) ∧
      (∀ k : String, k ∉ (runFunction req).inserted.map Prod.fst →
        lookupName d k = lookupName d0 k) := by
  rw [runFunction_ok req oxr d0 h1 h2]
  have hnd : ((genInserts oxr).map Prod.fst).Nodup := by
    rw [genInserts, generatedInserts_map_fst]
    exact generatedNames_nodup _ _ _
  refine ⟨rfl, rfl, rfl, _, rfl, rfl, ?_, ?_, ?_⟩
  · exact fun p hp => lookupName_insertAll_mem _ hnd d0 p hp
  · exact fun k hk => lookupName_insertAll_isSome _ _ _ hk
  · exact fun k hk => lookupName_insertAll_of_not_mem _ _ _ hk

theorem success_full_mapping_witness :
    (sampleReq.observed = Except.ok sampleOXR ∧ sampleReq.desiredGet = Except.ok []) ∧
    ((runFunction sampleReq).err = none ∧
    (runFunction sampleReq).rsp.fatalMessage = none ∧
    (runFunction sampleReq).rsp.ttlSeconds = 60 ∧
    ∃ d, (runFunction sampleReq).rsp.desiredResources = some d ∧
      (runFunction sampleReq).finalDesired = some d ∧
      (∀ p ∈ (runFunction sampleReq).inserted, lookupName d p.1 = some p.2) ∧
      (∀ k : String, (lookupName [] k).isSome → (lookupName d k).isSome) ∧
      (∀ k : String, k ∉ (runFunction sampleReq).inserted.map Prod.fst →
        lookupName d k = lookupName [] k)) :=
  ⟨⟨rfl, rfl⟩, success_full_mapping sampleReq sampleOXR [] rfl rfl⟩

/-- C10: `RunFunction` never returns a transport-level error: every path,
fatal or successful and for every possible converter behaviour, returns a
nil Go error; failures are conveyed only inside the response. -/
theorem no_transport_error (convV : VPC → Except String DesiredComposed)
    (convG : InternetGateway → Except String DesiredComposed)
    (req : RunFunctionRequest) :
    (runFunctionWith convV convG req).err = none := by
  unfold runFunctionWith
  rcases req with ⟨obs, dg⟩
  cases obs with
  | error e => rfl
  | ok oxr =>
    cases dg with
    | error e => rfl
    | ok d0 =>
      dsimp only
      split <;> rfl

/-! ### Behaviour of the loop under conversion failure -/

theorem composeLoop_split (cV : VPC → Except String DesiredComposed)
    (cG : InternetGateway → Except String DesiredComposed)
    (id r p : String) (gw : Bool) (is : List Nat) :
    ∀ (d acc : DesiredMap), ∃ new : DesiredMap,
      (composeLoop cV cG id r p gw is d acc).inserted = acc ++ new ∧
      (composeLoop cV cG id r p gw is d acc).desired = insertAll d new := by
  induction is with
  | nil =>
    intro d acc
    exact ⟨[], by simp [composeLoop], rfl⟩
  | cons i rest ih =>
    intro d acc
    cases hv : cV (mkVPC id r p i) with
    | error e =>
      refine ⟨[], ?_, ?_⟩ <;> simp [composeLoop, hv, insertAll]
    | ok dc =>
      cases gw with
      | false =>
        obtain ⟨new, hins, hdes⟩ :=
          ih (upsert d (vpcName id i) dc) (acc ++ [(vpcName id i, dc)])
        refine ⟨(vpcName id i, dc) :: new, ?_, ?_⟩
        · simp only [composeLoop, hv]
          simp only [Bool.false_eq_true, if_false, hins, List.append_assoc,
            List.singleton_append]
        · simp only [composeLoop, hv]
          simp only [Bool.false_eq_true, if_false, hdes]
          rfl
      | true =>
        cases hg : cG (mkGateway id r p i) with
        | error e2 =>
          refine ⟨[(vpcName id i, dc)], ?_, ?_⟩ <;>
            simp [composeLoop, hv, hg, insertAll]
        | ok dcg =>
          obtain ⟨new, hins, hdes⟩ :=
            ih (upsert (upsert d (vpcName id i) dc) (gatewayName id i) dcg)
              (acc ++ [(vpcName id i, dc)] ++ [(gatewayName id i, dcg)])
          refine ⟨(vpcName id i, dc) :: (gatewayName id i, dcg) :: new, ?_, ?_⟩
          · simp only [composeLoop, hv, hg, if_true]
            rw [hins]
            simp
          · simp only [composeLoop, hv, hg, if_true]
            rw [hdes]
            rfl

theorem composeLoop_fail (cV : VPC → Except String DesiredComposed)
    (cG : InternetGateway → Except String DesiredComposed)
    (id r p : String) (gw : Bool) (i : Nat) (rest : List Nat)
    (hfail : exceptOk (cV (mkVPC id r p i)) = false ∨
      (gw = true ∧ exceptOk (cG (mkGateway id r p i)) = false)) :
    ∀ (is1 : List Nat) (d acc : DesiredMap),
      (∀ j ∈ is1, exceptOk (cV (mkVPC id r p j)) = true) →
      (gw = true → ∀ j ∈ is1, exceptOk (cG (mkGateway id r p j)) = true) →
      (composeLoop cV cG id r p gw (is1 ++ i :: rest) d acc).fatalMsg.isSome = true ∧
      ((composeLoop cV cG id r p gw (is1 ++ i :: rest) d acc).inserted.map Prod.fst =
          acc.map Prod.fst ++ is1.flatMap (unitNames id gw) ∨
        (composeLoop cV cG id r p gw (is1 ++ i :: rest) d acc).inserted.map Prod.fst =
          acc.map Prod.fst ++ is1.flatMap (unitNames id gw) ++ [vpcName id i]) := by
  intro is1
  induction is1 with
  | nil =>
    intro d acc _ _
    simp only [List.nil_append, List.flatMap_nil, List.append_nil]
    cases hv : cV (mkVPC id r p i) with
    | error e =>
      constructor
      · simp [composeLoop, hv]
      · left
        simp [composeLoop, hv]
    | ok dc =>
      rcases hfail with hf | ⟨hgw, hgf⟩
      · rw [hv] at hf
        simp [exceptOk] at hf
      · subst hgw
        cases hg : cG (mkGateway id r p i) with
        | error e2 =>
          constructor
          · simp [composeLoop, hv, hg]
          · right
            simp [composeLoop, hv, hg]
        | ok dcg =>
          rw [hg] at hgf
          simp [exceptOk] at hgf
  | cons j t ih =>
    intro d acc hokV hokG
    have hjV := hokV j (List.mem_cons_self j t)
    obtain ⟨dc, hdc⟩ : ∃ dc, cV (mkVPC id r p j) = .ok dc := by
      cases h : cV (mkVPC id r p j) with
      | error e => rw [h] at hjV; simp [exceptOk] at hjV
      | ok dc => exact ⟨dc, rfl⟩
    simp only [List.cons_append]
    cases gw with
    | false =>
      have hrec := ih (upsert d (vpcName id j) dc) (acc ++ [(vpcName id j, dc)])
        (fun x hx => hokV x (List.mem_cons_of_mem j hx))
        (fun hh => absurd hh (by simp))
      constructor
      · simp only [composeLoop, hdc, Bool.false_eq_true, if_false]
        exact hrec.1
      · simp only [composeLoop, hdc, Bool.false_eq_true, if_false]
        rcases hrec.2 with hh | hh
        · left
          rw [hh]
          simp [unitNames]
        · right
          rw [hh]
          simp [unitNames]
    | true =>
      have hjG := hokG rfl j (List.mem_cons_self j t)
      obtain ⟨dcg, hdcg⟩ : ∃ dcg, cG (mkGateway id r p j) = .ok dcg := by
        cases h : cG (mkGateway id r p j) with
        | error e => rw [h] at hjG; simp [exceptOk] at hjG
        | ok dcg => exact ⟨dcg, rfl⟩
      have hrec := ih (upsert (upsert d (vpcName id j) dc) (gatewayName id j) dcg)
        (acc ++ [(vpcName id j, dc)] ++ [(gatewayName id j, dcg)])
        (fun x hx => hokV x (List.mem_cons_of_mem j hx))
        (fun _ x hx => hokG rfl x (List.mem_cons_of_mem j hx))
      constructor
      · simp only [composeLoop, hdc, hdcg, if_true]
        exact hrec.1
      · simp only [composeLoop, hdc, hdcg, if_true]
        rcases hrec.2 with hh | hh
        · left
          rw [hh]
          simp [unitNames]
        · right
          rw [hh]
          simp [unitNames]

theorem range_split (i n : Nat) (h : i < n) :
    ∃ rest, List.range n = List.range i ++ i :: rest := by
  have h1 : n = i + 1 + (n - i - 1) := by omega
  refine ⟨(List.range (n - i - 1)).map (fun x => i + 1 + x), ?_⟩
  conv_lhs => rw [h1]
  rw [List.range_add, List.range_succ]
  simp [List.append_assoc]

theorem vpcName_not_mem_generatedNames (id : String) (gw : Bool) (i : Nat) :
    vpcName id i ∉ generatedNames id gw i := by
  intro h
  rcases mem_generatedNames h with ⟨j, hj, hc | hc⟩
  · have := vpcName_inj hc
    omega
  · exact vpcName_ne_gatewayName id id i j hc

theorem runFunctionWith_loop_fatal (cV : VPC → Except String DesiredComposed)
    (cG : InternetGateway → Except String DesiredComposed)
    (req : RunFunctionRequest) (oxr : ObservedXR) (d0 : DesiredMap) (m : String)
    (h1 : req.observed = Except.ok oxr) (h2 : req.desiredGet = Except.ok d0)
    (hm : (composeLoop cV cG (oxr.id.getD "") (effectiveRegion (oxr.region.getD ""))
        (effectiveProviderConfigName (oxr.providerConfigName.getD ""))
        (oxr.includeGateway.getD false)
        (List.range (oxr.count.getD 0).toNat) d0 []).fatalMsg = some m) :
    runFunctionWith cV cG req =
      ⟨⟨defaultTTLSeconds, some m, none⟩, none,
       some (composeLoop cV cG (oxr.id.getD "") (effectiveRegion (oxr.region.getD ""))
          (effectiveProviderConfigName (oxr.providerConfigName.getD ""))
          (oxr.includeGateway.getD false)
          (List.range (oxr.count.getD 0).toNat) d0 []).desired,
       (composeLoop cV cG (oxr.id.getD "") (effectiveRegion (oxr.region.getD ""))
          (effectiveProviderConfigName (oxr.providerConfigName.getD ""))
          (oxr.includeGateway.getD false)
          (List.range (oxr.count.getD 0).toNat) d0 []).inserted⟩ := by
  unfold runFunctionWith
  rw [h1, h2]
  dsimp only
  rw [hm]

/-- C8: if conversion of a synthesized unit fails at replica index `i`
(after succeeding at all earlier indices), the invocation returns a fatal
response (never reported as success, nil transport error), the insertions
performed are exactly those of indices before the failure (plus the VPC at
`i` itself when the gateway conversion is what failed), no later index
contributes anything, and the already-inserted entries remain in the final
collection without rollback. -/
theorem conversion_failure_aborts
    (convV : VPC → Except String DesiredComposed)
    (convG : InternetGateway → Except String DesiredComposed)
    (req : RunFunctionRequest) (oxr : ObservedXR) (d0 : DesiredMap) (i : Nat)
    (h1 : req.observed = Except.ok oxr) (h2 : req.desiredGet = Except.ok d0)
    (hi : i < (oxr.count.getD 0).toNat)
    (hprevV : ∀ j, j < i → exceptOk (convV (mkVPC (oxr.id.getD "")
        (effectiveRegion (oxr.region.getD ""))
        (effectiveProviderConfigName (oxr.providerConfigName.getD "")) j)) = true)
    (hprevG : oxr.includeGateway.getD false = true → ∀ j, j < i →
        exceptOk (convG (mkGateway (oxr.id.getD "")
          (effectiveRegion (oxr.region.getD ""))
          (effectiveProviderConfigName (oxr.providerConfigName.getD "")) j)) = true)
    (hfail : exceptOk (convV (mkVPC (oxr.id.getD "")
        (effectiveRegion (oxr.region.getD ""))
        (effectiveProviderConfigName (oxr.providerConfigName.getD "")) i)) = false ∨
      (oxr.includeGateway.getD false = true ∧
        exceptOk (convG (mkGateway (oxr.id.getD "")
          (effectiveRegion (oxr.region.getD ""))
          (effectiveProviderConfigName (oxr.providerConfigName.getD "")) i)) = false)) :
    (runFunctionWith convV convG req).rsp.fatalMessage.isSome = true ∧
    (runFunctionWith convV convG req).rsp.desiredResources = none ∧
    (runFunctionWith convV convG req).err = none ∧
    ((runFunctionWith convV convG req).inserted.map Prod.fst =
        generatedNames (oxr.id.getD "") (oxr.includeGateway.getD false) i ∨
      (runFunctionWith convV convG req).inserted.map Prod.fst =
        generatedNames (oxr.id.getD "") (oxr.includeGateway.getD false) i ++
          [vpcName (oxr.id.getD "") i]) ∧
    (runFunctionWith convV convG req).finalDesired =
      some (insertAll d0 (runFunctionWith convV convG req).inserted) ∧
    (∀ p ∈ (runFunctionWith convV convG req).inserted,
      lookupName (insertAll d0 (runFunctionWith convV convG req).inserted) p.1 =
        some p.2) := by
  obtain ⟨rest, hrange⟩ := range_split i (oxr.count.getD 0).toNat hi
  have hloop := composeLoop_fail convV convG (oxr.id.getD "")
    (effectiveRegion (oxr.region.getD ""))
    (effectiveProviderConfigName (oxr.providerConfigName.getD ""))
    (oxr.includeGateway.getD false) i rest hfail (List.range i) d0 []
    (fun j hj => hprevV j (List.mem_range.mp hj))
    (fun hgw j hj => hprevG hgw j (List.mem_range.mp hj))
  simp only [List.map_nil, List.nil_append] at hloop
  obtain ⟨m, hm⟩ := Option.isSome_iff_exists.mp hloop.1
  have hmain : (composeLoop convV convG (oxr.id.getD "")
      (effectiveRegion (oxr.region.getD ""))
      (effectiveProviderConfigName (oxr.providerConfigName.getD ""))
      (oxr.includeGateway.getD false)
      (List.range (oxr.count.getD 0).toNat) d0 []).fatalMsg = some m := by
    rw [hrange]; exact hm
  obtain ⟨new, hins, hdes⟩ := composeLoop_split convV convG (oxr.id.getD "")
    (effectiveRegion (oxr.region.getD ""))
    (effectiveProviderConfigName (oxr.providerConfigName.getD ""))
    (oxr.includeGateway.getD false) (List.range (oxr.count.getD 0).toNat) d0 []
  rw [List.nil_append] at hins
  have hkeys : (composeLoop convV convG (oxr.id.getD "")
      (effectiveRegion (oxr.region.getD ""))
      (effectiveProviderConfigName (oxr.providerConfigName.getD ""))
      (oxr.includeGateway.getD false)
      (List.range (oxr.count.getD 0).toNat) d0 []).inserted.map Prod.fst =
      generatedNames (oxr.id.getD "") (oxr.includeGateway.getD false) i ∨
      (composeLoop convV convG (oxr.id.getD "")
      (effectiveRegion (oxr.region.getD ""))
      (effectiveProviderConfigName (oxr.providerConfigName.getD ""))
      (oxr.includeGateway.getD false)
      (List.range (oxr.count.getD 0).toNat) d0 []).inserted.map Prod.fst =
      generatedNames (oxr.id.getD "") (oxr.includeGateway.getD false) i ++
        [vpcName (oxr.id.getD "") i] := by
    rw [hrange, generatedNames]
    exact hloop.2
  have hnodup : ((composeLoop convV convG (oxr.id.getD "")
      (effectiveRegion (oxr.region.getD ""))
      (effectiveProviderConfigName (oxr.providerConfigName.getD ""))
      (oxr.includeGateway.getD false)
      (List.range (oxr.count.getD 0).toNat) d0 []).inserted.map Prod.fst).Nodup := by
    rcases hkeys with hk | hk <;> rw [hk]
    · exact generatedNames_nodup _ _ _
    · simp only [List.nodup_append, List.nodup_singleton, true_and]
      refine ⟨generatedNames_nodup _ _ _, ?_⟩
      intro a ha hb
      rw [List.mem_singleton] at hb
      subst hb
      exact vpcName_not_mem_generatedNames _ _ _ ha
  rw [runFunctionWith_loop_fatal convV convG req oxr d0 m h1 h2 hmain]
  refine ⟨rfl, rfl, rfl, hkeys, ?_, ?_⟩
  · rw [hdes, hins]
  · intro p hp
    exact lookupName_insertAll_mem _ hnodup d0 p hp

/-- Observed composite resource used to exhibit a conversion failure. -/
def failProbeOXR : ObservedXR :=
  { id := some "x", count := some 2, includeGateway := some false
    region := none, providerConfigName := none }

/-- Request used to exhibit a conversion failure. -/
def failProbeReq : RunFunctionRequest :=
  { observed := Except.ok failProbeOXR, desiredGet := Except.ok [] }

/-- A converter that fails exactly on the VPC named `vpc-x-1`. -/
def failingConvV : VPC → Except String DesiredComposed :=
  fun v => if v.metadata.name = vpcName "x" 1 then .error "boom" else composedFromVPC v

theorem conversion_failure_aborts_witness :
    (failProbeReq.observed = Except.ok failProbeOXR ∧
     failProbeReq.desiredGet = Except.ok [] ∧
     1 < (failProbeOXR.count.getD 0).toNat ∧
     exceptOk (failingConvV (mkVPC (failProbeOXR.id.getD "")
       (effectiveRegion (failProbeOXR.region.getD ""))
       (effectiveProviderConfigName (failProbeOXR.providerConfigName.getD "")) 1)) =
         false) ∧
    ((runFunctionWith failingConvV composedFromGateway failProbeReq).rsp.fatalMessage.isSome
        = true ∧
    (runFunctionWith failingConvV composedFromGateway failProbeReq).rsp.desiredResources
        = none ∧
    (runFunctionWith failingConvV composedFromGateway failProbeReq).err = none ∧
    ((runFunctionWith failingConvV composedFromGateway failProbeReq).inserted.map Prod.fst =
        generatedNames (failProbeOXR.id.getD "")
          (failProbeOXR.includeGateway.getD false) 1 ∨
      (runFunctionWith failingConvV composedFromGateway failProbeReq).inserted.map Prod.fst =
        generatedNames (failProbeOXR.id.getD "")
          (failProbeOXR.includeGateway.getD false) 1 ++
          [vpcName (failProbeOXR.id.getD "") 1]) ∧
    (runFunctionWith failingConvV composedFromGateway failProbeReq).finalDesired =
      some (insertAll []
        (runFunctionWith failingConvV composedFromGateway failProbeReq).inserted) ∧
    (∀ p ∈ (runFunctionWith failingConvV composedFromGateway failProbeReq).inserted,
      lookupName (insertAll []
        (runFunctionWith failingConvV composedFromGateway failProbeReq).inserted) p.1 =
        some p.2)) :=
  ⟨⟨rfl, rfl, by decide, by decide⟩,
   conversion_failure_aborts failingConvV composedFromGateway failProbeReq failProbeOXR
     [] 1 rfl rfl (by decide) (by decide) (by decide) (Or.inl (by decide))⟩

end DemoXfnNetwork
